import Mathlib

/-!
Verification of the CityFix client (src/unnamed/part_000, the full variant,
and src/app.js, the minimal variant) against its specification.

The embedding models the state-mutating core of each handler: push-event
reactions mutate the issue collection and the session user, fetch routines
overwrite state from a network result, renderers are pure functions from
state to a view model, and the debounced location search is a small state
machine over a pending timer.  JavaScript numbers carry no arithmetic here
beyond truthiness tests, so coordinates are modelled as rationals; the JS
truthiness of a number (null, undefined and 0 are falsy) is modelled
explicitly.
-/

/-- An issue record as produced by the backend and stored in STATE.issues
(part_000 lines 8-15).  Coordinates are optional: an absent field models a
null or undefined JS value. -/
structure Issue where
  id : String
  type : String
  location : String
  lat : Option ℚ
  lng : Option ℚ
  description : String
  image : Option String
  date : String
  status : String
  reporter_name : Option String
deriving DecidableEq, Repr

/-- A transient notification produced by showToast (part_000 lines 1009-1028):
a message and a severity type. -/
structure Toast where
  message : String
  type : String
deriving DecidableEq, Repr

/-- A map marker as placed by renderMainMap: position and status colour. -/
structure Marker where
  lat : ℚ
  lng : ℚ
  color : String
deriving DecidableEq, Repr

/-- The session user stored in STATE.currentUser and localStorage. -/
structure User where
  id : String
  username : String
  points : Int
deriving DecidableEq, Repr

/-- JS truthiness of an optional numeric field: null, undefined and 0 are
falsy, every other number is truthy. -/
def jsTruthyNum : Option ℚ → Bool
  | none => false
  | some q => q != 0

/-- The marker condition of renderMainMap line 594: issue.lat && issue.lng
under JS truthiness. -/
def hasCoords (i : Issue) : Bool :=
  jsTruthyNum i.lat && jsTruthyNum i.lng

/-- Status colour of a marker (part_000 lines 595-596). -/
def markerColor (status : String) : String :=
  if status = "solved" then "green"
  else if status = "in-progress" then "blue"
  else "red"

/-- The marker built for one issue (part_000 lines 598-613).  Only applied
to issues passing hasCoords, where both coordinates are present. -/
def mkMarker (i : Issue) : Marker :=
  { lat := i.lat.getD 0, lng := i.lng.getD 0, color := markerColor i.status }

/-- renderMainMap (part_000 lines 585-622): every previously tracked marker
is removed from the map and issueMarkers is reset (lines 589-590), then one
marker is pushed per issue whose lat and lng are both truthy (lines
593-615).  The result is the issueMarkers array after the render. -/
def renderMainMap (prevMarkers : List Marker) (issues : List Issue) : List Marker :=
  let cleared := prevMarkers.filter (fun _ => false)
  cleared ++ (issues.filter hasCoords).map mkMarker

/-- The display subset of the feed (part_000 lines 635-637, app.js lines
141-143): the full collection when the active filter is all, otherwise the
issues whose status equals the filter. -/
def feedList (filter : String) (issues : List Issue) : List Issue :=
  if filter = "all" then issues else issues.filter (fun i => i.status == filter)

/-- The view model computed by renderHome in part_000 (lines 628-668):
three counters over the full collection and the filtered display subset. -/
structure HomeView where
  total : Nat
  inProgress : Nat
  solved : Nat
  feed : List Issue
deriving DecidableEq, Repr

/-- renderHome (part_000 lines 628-668): counters are computed over
STATE.issues before the filter is applied; the filter shapes only the
displayed grid. -/
def renderHome (filter : String) (issues : List Issue) : HomeView :=
  { total := issues.length
    inProgress := (issues.filter (fun i => i.status == "in-progress")).length
    solved := (issues.filter (fun i => i.status == "solved")).length
    feed := feedList filter issues }

/-- The view model of renderHome in app.js (lines 135-163), which has only
the total and solved counters. -/
structure AppHomeView where
  total : Nat
  solved : Nat
  feed : List Issue
deriving DecidableEq, Repr

/-- renderHome of app.js (lines 135-163). -/
def app_renderHome (filter : String) (issues : List Issue) : AppHomeView :=
  { total := issues.length
    solved := (issues.filter (fun i => i.status == "solved")).length
    feed := feedList filter issues }

/-- State mutation of the new_issue push handler (part_000 lines 72-77):
the incoming issue is unshifted onto the collection unconditionally, with
no check whether its id is already present. -/
def newIssue (issues : List Issue) (i : Issue) : List Issue :=
  i :: issues

/-- Payload of the status_updated push event. -/
structure StatusData where
  issue_id : String
  status : String
  points_awarded : Int
deriving DecidableEq, Repr

/-- Array.prototype.find followed by an in-place status write (part_000
lines 80-82): only the first issue whose id matches is updated; no match
leaves the list untouched. -/
def updateFirstStatus : List Issue → String → String → List Issue
  | [], _, _ => []
  | i :: rest, iid, st =>
    if i.id = iid then { i with status := st } :: rest
    else i :: updateFirstStatus rest iid st

/-- The toast shown by the status_updated handler when points were awarded
(part_000 line 87). -/
def pointsToast (n : Int) : Toast :=
  { message := toString n ++ " points awarded!", type := "success" }

/-- The status_updated push handler (part_000 lines 79-89): update the
first matching issue in place, and show a points toast whenever
points_awarded is positive — note the toast check sits outside the
if-found block, so it also fires for an unknown id. -/
def statusUpdated (issues : List Issue) (d : StatusData) : List Issue × List Toast :=
  (updateFirstStatus issues d.issue_id d.status,
   if 0 < d.points_awarded then [pointsToast d.points_awarded] else [])

/-- Payload of the points_updated push event. -/
structure PointsData where
  user_id : String
  points : Int
  added : Int
deriving DecidableEq, Repr

/-- Observable outcome of the points_updated handler: the session user
afterwards, the value written to localStorage (none when no write
happened), the points animation payload (none when not shown), and whether
a leaderboard refetch was triggered. -/
structure PointsResult where
  currentUser : Option User
  persisted : Option User
  animation : Option Int
  leaderboardRefetch : Bool
deriving DecidableEq, Repr

/-- The points_updated push handler (part_000 lines 97-107): only when a
session user exists and its id equals the payload user_id are the balance
overwritten, the session persisted and the animation considered; the
leaderboard refetch is unconditional.  The animation guard models the JS
truthiness of data.added (zero is falsy). -/
def pointsUpdated (cu : Option User) (d : PointsData) : PointsResult :=
  match cu with
  | some u =>
    if u.id = d.user_id then
      let u2 : User := { u with points := d.points }
      { currentUser := some u2
        persisted := some u2
        animation := if d.added = 0 then none else some d.added
        leaderboardRefetch := true }
    else
      { currentUser := some u, persisted := none, animation := none, leaderboardRefetch := true }
  | none =>
      { currentUser := none, persisted := none, animation := none, leaderboardRefetch := true }

/-- A parsed JSON response body: either an array of issue records or some
other JSON value, such as an error object. -/
inductive JsonValue where
  | list (issues : List Issue)
  | other (payload : String)
deriving DecidableEq, Repr

/-- Outcome of a fetch call: a transport failure (the promise rejects), or
an HTTP response with an ok flag and a body that either parses as JSON or
fails to parse (none). -/
inductive FetchResult where
  | netError
  | resp (ok : Bool) (body : Option JsonValue)
deriving DecidableEq, Repr

/-- fetchIssues (part_000 lines 114-122, app.js lines 35-44): inside a
try block, STATE.issues is assigned the parsed body of the response; the
catch block leaves the previous value.  The ok flag of the response is
never consulted, so any response whose body parses as JSON overwrites the
collection, 2xx or not. -/
def fetchIssues (prev : JsonValue) : FetchResult → JsonValue
  | FetchResult.netError => prev
  | FetchResult.resp _ none => prev
  | FetchResult.resp _ (some j) => j

/-- Observable outcome of a report-form submit handler: toasts shown
before any response arrives, and the number of POST requests issued to the
gateway. -/
structure SubmitOutcome where
  toasts : List Toast
  posts : Nat
deriving DecidableEq, Repr

/-- The report-form submit handler of part_000 (lines 719-745) up to the
POST: the lat and lng hidden inputs are read as strings, and an empty
value in either (the only falsy string) aborts with a warning toast before
any network call; otherwise the POST is issued.  Response handling after
the POST is outside this model. -/
def reportSubmit (latField lngField : String) : SubmitOutcome :=
  if latField = "" || lngField = "" then
    { toasts := [{ message := "Please click on the map to select a location", type := "warning" }]
      posts := 0 }
  else
    { toasts := [], posts := 1 }

/-- The report-form submit handler of app.js (lines 194-213) up to the
POST: the coordinate fields are packaged into the payload without any
validation, and the POST is always issued. -/
def app_reportSubmit (_latField _lngField : String) : SubmitOutcome :=
  { toasts := [], posts := 1 }

/-- State of the debounced location autocomplete (part_000 lines 418-444):
the pending scheduled search (searchTimeout plus the captured query),
whether the suggestions panel is hidden, and the searches performed so
far. -/
structure AutoState where
  pending : Option String
  suggestionsHidden : Bool
  fired : List String
deriving DecidableEq, Repr

/-- The JS String.prototype.trim builtin: strip whitespace from both ends
of the value. -/
def jsTrim (s : String) : String :=
  String.mk (((s.toList.dropWhile Char.isWhitespace).reverse.dropWhile Char.isWhitespace).reverse)

/-- The input handler (part_000 lines 428-444): the value is trimmed, any
pending timeout is cleared, a query shorter than 3 characters hides the
suggestions and schedules nothing, and otherwise a search for the query is
scheduled. -/
def onInput (s : AutoState) (raw : String) : AutoState :=
  if (jsTrim raw).length < 3 then
    { s with pending := none, suggestionsHidden := true }
  else
    { s with pending := some (jsTrim raw) }

/-- Expiry of the scheduled timeout (part_000 lines 441-443): the pending
search, if any, fires searchLocation with its captured query and is no
longer pending. -/
def fireTimer (s : AutoState) : AutoState :=
  match s.pending with
  | none => s
  | some q => { s with pending := none, fired := s.fired ++ [q] }

/-- A concrete issue used in witnesses and counterexamples. -/
def sampleIssue : Issue :=
  { id := "a1", type := "pothole", location := "MG Road"
    lat := some (mkRat 129 10), lng := some (mkRat 776 10)
    description := "deep pothole", image := none
    date := "2024-01-05", status := "pending", reporter_name := none }

/-- A concrete solved issue with truthy coordinates. -/
def solvedIssue : Issue :=
  { id := "b2", type := "streetlight", location := "Church Street"
    lat := some 13, lng := some 77
    description := "lamp out", image := none
    date := "2024-02-01", status := "solved", reporter_name := some "asha" }

/-- A concrete issue whose latitude is present but zero: both coordinate
fields are set, yet the JS truthiness test in renderMainMap rejects it. -/
def zeroLatIssue : Issue :=
  { id := "z1", type := "garbage", location := "Equator Street"
    lat := some 0, lng := some (mkRat 776 10)
    description := "garbage pile", image := none
    date := "2024-03-03", status := "pending", reporter_name := none }

/-- Claim C1 counterexample: the new_issue reaction is not idempotent — on
a collection already holding the sample issue, a second new_issue event
carrying the same record yields two entries, so reapplying is not a
no-op. -/
theorem new_issue_dup_cex :
    (newIssue (newIssue [] sampleIssue) sampleIssue).length = 2 ∧
    newIssue [sampleIssue] sampleIssue ≠ [sampleIssue] := by
  refine ⟨rfl, fun h => ?_⟩
  have hlen := congrArg List.length h
  simp [newIssue] at hlen

/-- Claim C1 (amended): the new_issue reaction always prepends the
delivered issue, with no duplicate check, so the collection always grows
by one entry — two sequential events with the same id produce two
entries. -/
theorem new_issue_always_prepends (issues : List Issue) (i : Issue) :
    newIssue issues i = i :: issues ∧
    (newIssue issues i).length = issues.length + 1 :=
  ⟨rfl, by simp [newIssue]⟩

/-- Claim C2 counterexample: a non-2xx response whose body parses as JSON
overwrites the issue collection with that body, because fetchIssues never
consults the ok flag — the prior collection is not preserved. -/
theorem fetchIssues_overwrite_cex :
    fetchIssues (JsonValue.list [sampleIssue])
        (FetchResult.resp false (some (JsonValue.other "issues not found")))
      = JsonValue.other "issues not found" ∧
    JsonValue.other "issues not found" ≠ JsonValue.list [sampleIssue] :=
  ⟨rfl, by decide⟩

/-- Claim C2 (amended): a failed list-issues fetch leaves the prior issue
collection untouched when the failure is a transport error or a
response-body parse failure; a non-2xx response with a parseable JSON body
is not protected against. -/
theorem fetchIssues_preserves_on_failure (prev : JsonValue) (ok : Bool) :
    fetchIssues prev FetchResult.netError = prev ∧
    fetchIssues prev (FetchResult.resp ok none) = prev :=
  ⟨rfl, rfl⟩

/-- Helper: updating the status of an id that matches no issue leaves the
list unchanged. -/
theorem updateFirstStatus_eq_of_no_match (iid st : String) :
    ∀ issues : List Issue, (∀ i ∈ issues, i.id ≠ iid) →
      updateFirstStatus issues iid st = issues := by
  intro issues
  induction issues with
  | nil => intro _; rfl
  | cons a rest ih =>
    intro h
    have ha : ¬ a.id = iid := h a (List.mem_cons_self a rest)
    have hrest : updateFirstStatus rest iid st = rest :=
      ih fun i hi => h i (List.mem_cons_of_mem a hi)
    simp [updateFirstStatus, ha, hrest]

/-- Claim C3 counterexample: a status_updated event for an unknown id with
positive points_awarded leaves the collection unchanged but still produces
a user-visible points toast — it is not silently dropped. -/
theorem status_updated_unknown_toast_cex :
    (statusUpdated [sampleIssue]
        { issue_id := "zz", status := "solved", points_awarded := 5 }).1 = [sampleIssue] ∧
    (statusUpdated [sampleIssue]
        { issue_id := "zz", status := "solved", points_awarded := 5 }).2 ≠ [] := by
  refine ⟨?_, ?_⟩ <;> decide

/-- Claim C3 (amended): a status_updated event whose issue_id matches no
issue leaves the collection unchanged in length and content, and produces
no notification unless points_awarded is positive, in which case a points
toast is still shown. -/
theorem status_updated_unknown_id (issues : List Issue) (d : StatusData)
    (h : ∀ i ∈ issues, i.id ≠ d.issue_id) :
    (statusUpdated issues d).1 = issues ∧
    (statusUpdated issues d).2 =
      (if 0 < d.points_awarded then [pointsToast d.points_awarded] else []) :=
  ⟨updateFirstStatus_eq_of_no_match d.issue_id d.status issues h, rfl⟩

/-- Witness for claim C3 at a concrete unknown id with zero points. -/
theorem status_updated_unknown_id_witness :
    (∀ i ∈ [sampleIssue],
      i.id ≠ (StatusData.mk "nope" "in-progress" 0).issue_id) ∧
    ((statusUpdated [sampleIssue] (StatusData.mk "nope" "in-progress" 0)).1 = [sampleIssue] ∧
     (statusUpdated [sampleIssue] (StatusData.mk "nope" "in-progress" 0)).2 =
       (if 0 < (StatusData.mk "nope" "in-progress" 0).points_awarded
        then [pointsToast (StatusData.mk "nope" "in-progress" 0).points_awarded] else [])) :=
  ⟨by decide, status_updated_unknown_id [sampleIssue] _ (by decide)⟩

/-- Claim C4: a points_updated event whose user_id differs from the
session user leaves the session user and the persisted session unchanged
(no localStorage write) and shows no animation, yet still triggers the
unconditional leaderboard refetch. -/
theorem points_updated_other_user (u : User) (d : PointsData)
    (h : u.id ≠ d.user_id) :
    pointsUpdated (some u) d =
      { currentUser := some u, persisted := none, animation := none,
        leaderboardRefetch := true } := by
  simp [pointsUpdated, h]

/-- Witness for claim C4 at a concrete mismatched user id. -/
theorem points_updated_other_user_witness :
    (User.mk "u1" "asha" 10).id ≠ (PointsData.mk "u2" 50 10).user_id ∧
    pointsUpdated (some (User.mk "u1" "asha" 10)) (PointsData.mk "u2" 50 10) =
      { currentUser := some (User.mk "u1" "asha" 10), persisted := none,
        animation := none, leaderboardRefetch := true } :=
  ⟨by decide, points_updated_other_user _ _ (by decide)⟩

/-- Claim C5 counterexample: an issue whose latitude field is present but
zero has both coordinate fields present, yet renderMainMap places no
marker for it (JS truthiness treats 0 as absent), while the feed still
shows it. -/
theorem map_zero_coord_cex :
    zeroLatIssue.lat.isSome = true ∧
    zeroLatIssue.lng.isSome = true ∧
    renderMainMap [] [zeroLatIssue] = [] ∧
    feedList "all" [zeroLatIssue] = [zeroLatIssue] := by
  refine ⟨rfl, rfl, ?_, ?_⟩ <;> decide

/-- Claim C5 (amended): the map renderer places exactly one marker per
issue whose lat and lng are both present and non-zero (JS truthiness);
every other issue is excluded from map rendering but still appears in the
feed. -/
theorem map_markers_truthy_coords (prev : List Marker) (issues : List Issue) :
    renderMainMap prev issues = (issues.filter hasCoords).map mkMarker ∧
    feedList "all" issues = issues := by
  refine ⟨?_, ?_⟩
  · simp [renderMainMap]
  · simp [feedList]

/-- Claim C6 counterexample: the app.js variant performs no coordinate
check — a submission with both coordinate fields empty still issues one
POST to the gateway and shows no warning. -/
theorem app_report_submit_no_coords_cex :
    (app_reportSubmit "" "").posts = 1 ∧
    (app_reportSubmit "" "").posts ≠ 0 ∧
    (app_reportSubmit "" "").toasts = [] :=
  ⟨rfl, by decide, rfl⟩

/-- Claim C6 (amended): in the full variant (part_000) a submission with
either coordinate field unset is rejected locally with a warning toast and
zero gateway calls; the minimal variant (app.js) performs no such check
and always issues the POST. -/
theorem report_submit_requires_coords (latField lngField : String)
    (h : latField = "" ∨ lngField = "") :
    reportSubmit latField lngField =
      { toasts := [{ message := "Please click on the map to select a location",
                     type := "warning" }],
        posts := 0 } ∧
    (app_reportSubmit latField lngField).posts = 1 := by
  refine ⟨?_, rfl⟩
  rcases h with h | h <;> simp [reportSubmit, h]

/-- Witness for claim C6 at empty coordinate fields. -/
theorem report_submit_requires_coords_witness :
    (("" : String) = "" ∨ ("" : String) = "") ∧
    (reportSubmit "" "" =
      { toasts := [{ message := "Please click on the map to select a location",
                     type := "warning" }],
        posts := 0 } ∧
     (app_reportSubmit "" "").posts = 1) :=
  ⟨Or.inl rfl, report_submit_requires_coords "" "" (Or.inl rfl)⟩

/-- Claim C7: a re-render of the main map first discards every previously
placed marker, so over a collection of N issues that all pass the
coordinate check exactly N markers exist afterwards, and the result never
depends on the markers left by earlier renders. -/
theorem renderMainMap_no_marker_leak (prev : List Marker) (issues : List Issue)
    (h : ∀ i ∈ issues, hasCoords i = true) :
    (renderMainMap prev issues).length = issues.length ∧
    renderMainMap prev issues = renderMainMap [] issues := by
  have hf : issues.filter hasCoords = issues := List.filter_eq_self.mpr h
  refine ⟨?_, ?_⟩
  · simp [renderMainMap, hf]
  · simp [renderMainMap]

/-- Witness for claim C7: two issues with truthy coordinates and a stale
marker from an earlier render still yield exactly two markers. -/
theorem renderMainMap_no_marker_leak_witness :
    (∀ i ∈ [sampleIssue, solvedIssue], hasCoords i = true) ∧
    ((renderMainMap [Marker.mk 1 2 "red"] [sampleIssue, solvedIssue]).length =
        [sampleIssue, solvedIssue].length ∧
     renderMainMap [Marker.mk 1 2 "red"] [sampleIssue, solvedIssue] =
        renderMainMap [] [sampleIssue, solvedIssue]) :=
  ⟨by decide, renderMainMap_no_marker_leak _ _ (by decide)⟩

/-- Claim C8: for every collection and every active filter, the feed
counters equal the counts over the full unfiltered collection — the filter
shapes only the displayed subset.  The app.js variant, which has only the
total and solved counters, satisfies the same property for those two. -/
theorem renderHome_counters_unfiltered (filter : String) (issues : List Issue) :
    (renderHome filter issues).total = issues.length ∧
    (renderHome filter issues).inProgress =
      (issues.filter (fun i => i.status == "in-progress")).length ∧
    (renderHome filter issues).solved =
      (issues.filter (fun i => i.status == "solved")).length ∧
    (renderHome filter issues).feed = feedList filter issues ∧
    (app_renderHome filter issues).total = issues.length ∧
    (app_renderHome filter issues).solved =
      (issues.filter (fun i => i.status == "solved")).length :=
  ⟨rfl, rfl, rfl, rfl, rfl, rfl⟩

/-- Helper: a keystroke never performs a search by itself. -/
theorem onInput_fired (s : AutoState) (raw : String) :
    (onInput s raw).fired = s.fired := by
  unfold onInput
  split <;> rfl

/-- Helper: a burst of keystrokes performs no search while it lasts. -/
theorem foldl_onInput_fired (raws : List String) :
    ∀ s : AutoState, (List.foldl onInput s raws).fired = s.fired := by
  induction raws with
  | nil => intro s; rfl
  | cons r rs ih => intro s; rw [List.foldl_cons, ih, onInput_fired]

/-- Claim C9: a burst of keystrokes within the quiet period fires no
search while it lasts; when the single pending timer then expires, exactly
one search is performed, for the trimmed final query (none if that query
is shorter than 3 characters).  Moreover the search scheduled by a
keystroke does not depend on what was pending before: each keystroke
cancels the previously scheduled search. -/
theorem debounce_single_search (s : AutoState) (p : Option String)
    (raws : List String) (q : String) :
    ((raws ++ [q]).foldl onInput s).fired = s.fired ∧
    (fireTimer ((raws ++ [q]).foldl onInput s)).fired =
      s.fired ++ (if (jsTrim q).length < 3 then [] else [jsTrim q]) ∧
    (onInput { s with pending := p } q).pending = (onInput s q).pending := by
  have hfold : (raws ++ [q]).foldl onInput s = onInput (raws.foldl onInput s) q := by
    rw [List.foldl_append]
    rfl
  have hfired : (raws.foldl onInput s).fired = s.fired := foldl_onInput_fired raws s
  refine ⟨?_, ?_, ?_⟩
  · rw [hfold, onInput_fired, hfired]
  · rw [hfold]
    by_cases hq : (jsTrim q).length < 3
    · simp [onInput, hq, fireTimer, hfired]
    · simp [onInput, hq, fireTimer, hfired]
  · by_cases hq : (jsTrim q).length < 3 <;> simp [onInput, hq]

/-- Claim C10: a keystroke whose trimmed value is shorter than 3
characters cancels any pending scheduled search, schedules nothing, hides
the suggestions panel, and performs no search; and any query a keystroke
does schedule has at least 3 characters. -/
theorem short_query_no_schedule (s : AutoState) (raw : String)
    (h : (jsTrim raw).length < 3) :
    (onInput s raw).pending = none ∧
    (onInput s raw).suggestionsHidden = true ∧
    (onInput s raw).fired = s.fired ∧
    ∀ (s2 : AutoState) (r2 q : String),
      (onInput s2 r2).pending = some q → 3 ≤ q.length := by
  refine ⟨by simp [onInput, h], by simp [onInput, h], by simp [onInput, h], ?_⟩
  intro s2 r2 q hq
  by_cases h2 : (jsTrim r2).length < 3
  · simp [onInput, h2] at hq
  · simp [onInput, h2] at hq
    exact hq ▸ le_of_not_lt h2

/-- Witness for claim C10: typing a two-character query while a search is
pending cancels it, hides the panel and schedules nothing. -/
theorem short_query_no_schedule_witness :
    ((jsTrim "ab").length < 3) ∧
    ((onInput (AutoState.mk (some "previous query") false []) "ab").pending = none ∧
     (onInput (AutoState.mk (some "previous query") false []) "ab").suggestionsHidden = true ∧
     (onInput (AutoState.mk (some "previous query") false []) "ab").fired =
       (AutoState.mk (some "previous query") false []).fired ∧
     ∀ (s2 : AutoState) (r2 q : String),
       (onInput s2 r2).pending = some q → 3 ≤ q.length) :=
  ⟨by decide, short_query_no_schedule _ "ab" (by decide)⟩
